import Mathlib

/-!
# Verification of the MantiPDF interactive annotation editor

Shallow embedding of the annotation-editor core of the MantiPDF
repository (`src/gui/pdf_viewer.py`, `src/core/pdf_handler.py`,
`src/core/pdf_annotations.py`) and proofs about the claims of its
specification.

Coordinates and style quantities are modelled as rationals (`ℚ`); the
Python `int(...)` truncation used by `finish_annotation` is modelled by
`pyInt`.  Pages are lists of annotations; PyMuPDF (`fitz`) annotation
handles are identified by their cross-reference number `xref`, and
`resolve_by_identity` is a `find?` over the page, exactly as the code's
re-binding loop walks `page.annots()` comparing xrefs.
-/

deriving instance DecidableEq for Except

namespace MantiPDF

/-- The negligible-motion epsilon `0.1` document units of the drag
finalization test (`pdf_viewer.py:711`), as the rational `1/10`. -/
def dragEps : ℚ := mkRat 1 10

/-- Python's `abs` on a rational (used for the drag epsilon test and
`fitz.Rect.width`/`height`): negate exactly the negatives.  Stated on
the numerator so that the kernel can evaluate it. -/
def pyAbs (q : ℚ) : ℚ := if q.num < 0 then -q else q

/-- A 2-D point (screen pixels or PDF document units, per context). -/
structure Pt where
  x : ℚ
  y : ℚ
deriving DecidableEq, Repr

/-- A rectangle given by its two corner coordinates, as in `fitz.Rect`
and `QRectF` (`x1 = x + width`). -/
structure Rect where
  x0 : ℚ
  y0 : ℚ
  x1 : ℚ
  y1 : ℚ
deriving DecidableEq, Repr

/-- Width of a rectangle as `fitz.Rect.width`: `abs(x1 - x0)`. -/
def fitzW (r : Rect) : ℚ := pyAbs (r.x1 - r.x0)

/-- Height of a rectangle as `fitz.Rect.height`: `abs(y1 - y0)`. -/
def fitzH (r : Rect) : ℚ := pyAbs (r.y1 - r.y0)

/-- Width `x1 - x0` of a normalized `QRectF`. -/
def qWidth (r : Rect) : ℚ := r.x1 - r.x0

/-- Height `y1 - y0` of a normalized `QRectF`. -/
def qHeight (r : Rect) : ℚ := r.y1 - r.y0

/-- Model of `QRectF(QPointF(p), QPointF(q)).normalized()`: the axis-aligned
rectangle on the two points with non-negative width and height. -/
def normRect (p q : Pt) : Rect :=
  ⟨min p.x q.x, min p.y q.y, max p.x q.x, max p.y q.y⟩

/-- Membership of a point in a rectangle (`fitz_point in annot.rect`,
`QRectF.contains`): closed on all four edges. -/
def rectContainsPt (r : Rect) (p : Pt) : Bool :=
  r.x0 ≤ p.x && p.x ≤ r.x1 && r.y0 ≤ p.y && p.y ≤ r.y1

/-- Python `int(q)`: truncation toward zero.  On a reduced rational
`num/den` this is exactly the truncating division of the integers
(`Int.tdiv`, which rounds toward zero like Python `int`). -/
def pyInt (q : ℚ) : ℤ := q.num.tdiv (q.den : ℤ)

/-- Screen → document conversion used throughout `pdf_viewer.py`:
`(screen - offset) / scale` (no rounding; used by the select-mode
paths, which build `fitz.Point`s). -/
def toDoc (p : Pt) (ox oy scale : ℚ) : Pt :=
  ⟨(p.x - ox) / scale, (p.y - oy) / scale⟩

/-- Screen → document conversion used by `finish_annotation`
(`pdf_viewer.py:937-940`): same formula but passed through `int(...)`
because the result is stored in a `QPoint`. -/
def toDocInt (p : Pt) (ox oy scale : ℚ) : Pt :=
  ⟨(pyInt ((p.x - ox) / scale) : ℤ), (pyInt ((p.y - oy) / scale) : ℤ)⟩

/-- Annotation kinds with their `fitz` type codes (`annot.type[0]`). -/
inductive AnnotKind
  | text | freeText | line | square | circle | polygon | polyLine | highlight | stamp
deriving DecidableEq, Repr

/-- Numeric PDF annotation type code, `annot.type[0]`. -/
def AnnotKind.code : AnnotKind → ℕ
  | .text => 0
  | .freeText => 2
  | .line => 3
  | .square => 4
  | .circle => 5
  | .polygon => 6
  | .polyLine => 7
  | .highlight => 8
  | .stamp => 13

/-- Type name string `annot.type[1]` reported by `fitz`. -/
def AnnotKind.name : AnnotKind → String
  | .text => "Text"
  | .freeText => "FreeText"
  | .line => "Line"
  | .square => "Square"
  | .circle => "Circle"
  | .polygon => "Polygon"
  | .polyLine => "PolyLine"
  | .highlight => "Highlight"
  | .stamp => "Stamp"

/-- An RGB color with components normalized to `[0,1]`, as passed to
`fitz` (`annot.set_colors`). -/
structure Color where
  r : ℚ
  g : ℚ
  b : ℚ
deriving DecidableEq, Repr

/-- Line-end decoration codes: `fitz.PDF_ANNOT_LE_NONE = 0`,
`fitz.PDF_ANNOT_LE_CLOSED_ARROW = 5`. -/
def leNone : ℕ := 0

/-- Code of `fitz.PDF_ANNOT_LE_CLOSED_ARROW`. -/
def leClosedArrow : ℕ := 5

/-- The style state of a `fitz` annotation, as read back by the viewer:
`annot.colors` (stroke/fill), `annot.border["width"]` (may be absent,
read with default 1), `annot.opacity`, `annot.line_ends`, and the
`annot.info` dictionary (modelled opaquely as a string). -/
structure Style where
  stroke : Option Color
  fill : Option Color
  borderWidth : Option ℚ
  opacity : ℚ
  lineEnds : ℕ × ℕ
  info : String
deriving DecidableEq, Repr

/-- A live annotation on a page: its stable identity (`xref`), kind,
bounding rectangle, vertex list (`annot.vertices`, `none` for
rectangle-kinds) and style. -/
structure Annot where
  xref : ℕ
  kind : AnnotKind
  rect : Rect
  vertices : Option (List Pt)
  style : Style
deriving DecidableEq, Repr

/-- A page is the ordered annotation list of `page.annots()`
(front-to-back; the viewer iterates it reversed to hit-test topmost
first). -/
abbrev Page := List Annot

/-- Identity lookup: the re-binding loop of `update_display`
(`pdf_viewer.py:148-151`) walks `page.annots()` and keeps the first
annotation whose `xref` matches. -/
def resolveByXref (page : Page) (x : ℕ) : Option Annot :=
  page.find? (fun a => a.xref = x)

/-- Bounding box of a non-empty vertex list (the rectangle `fitz`
derives for a polyline created by `add_polyline_annot`). -/
def bbox : List Pt → Rect
  | [] => ⟨0, 0, 0, 0⟩
  | p :: ps =>
      ps.foldl (fun r q => ⟨min r.x0 q.x, min r.y0 q.y, max r.x1 q.x, max r.y1 q.y⟩)
        ⟨p.x, p.y, p.x, p.y⟩

/-- A `QColor`: 0–255 channels plus alpha, as stored in
`current_properties` / `tool_properties`. -/
structure QCol where
  r : ℕ
  g : ℕ
  b : ℕ
  a : ℕ
deriving DecidableEq, Repr

/-- Color normalization done before every gateway call:
`(c.red()/255, c.green()/255, c.blue()/255)`. -/
def normColor (c : QCol) : Color := ⟨(c.r : ℚ) / 255, (c.g : ℚ) / 255, (c.b : ℚ) / 255⟩

/-- The per-tool style record of `current_properties` /
`tool_properties` (`pdf_viewer.py:49-56,78-85`). -/
structure Props where
  strokeColor : QCol
  fillColor : QCol
  thickness : ℚ
  fontSize : ℚ
  fontFamily : String
  arrowType : String
deriving DecidableEq, Repr

/-- The tool palette modes of `annotation_mode` (a string or `None` in
the source; `none` here models Python `None`). -/
inductive Mode
  | note | text | line | circle | highlight | stamp | select
deriving DecidableEq, Repr

/-- The per-tool defaults seeded in `__init__`
(`pdf_viewer.py:78-85`). `select` has no entry in the source dict; the
initial `current_properties` record (`pdf_viewer.py:49-56`) is used for
it so that the lookup stays total. -/
def defaultToolProps : Mode → Props
  | .note => ⟨⟨255, 200, 0, 255⟩, ⟨0, 0, 0, 0⟩, 1, 12, "helv", "none"⟩
  | .text => ⟨⟨0, 0, 0, 255⟩, ⟨0, 0, 0, 0⟩, 1, 12, "helv", "none"⟩
  | .line => ⟨⟨255, 0, 0, 255⟩, ⟨0, 0, 0, 0⟩, 2, 12, "helv", "none"⟩
  | .circle => ⟨⟨255, 0, 0, 255⟩, ⟨0, 0, 0, 0⟩, 2, 12, "helv", "none"⟩
  | .highlight => ⟨⟨255, 255, 0, 255⟩, ⟨0, 0, 0, 0⟩, 1, 12, "helv", "none"⟩
  | .stamp => ⟨⟨0, 128, 0, 255⟩, ⟨0, 0, 0, 0⟩, 1, 12, "helv", "none"⟩
  | .select => ⟨⟨255, 0, 0, 255⟩, ⟨0, 0, 0, 0⟩, 2, 12, "helv", "none"⟩

/-- Outbound selection notifications
(`annotation_selected(type_name, props)` / `annotation_deselected()`);
the properties payload is not needed by any claim and is omitted. -/
inductive Signal
  | selected (typeName : String)
  | deselected
deriving DecidableEq, Repr

/-- Python-level exceptions that can escape an event handler. -/
inductive PyErr
  | attributeError
  | typeError
  | gatewayError
deriving DecidableEq, Repr

/-- The calls the viewer issues to the PDF engine / `PDFHandler`
boundary.  The five `add_*` creation calls carry exactly the arguments
`finish_annotation` passes (`pdf_viewer.py:959-981`); `deleteAnnot`,
`addPolyline` and `setRect` are the mutation calls of the drag/resize
paths. -/
inductive GWCall
  | addNote (pos : Pt) (content : String) (color : Color)
  | addTextbox (r : Rect) (content : String) (fontsize : ℚ) (color : Color) (fontname : String)
  | addLine (p1 p2 : Pt) (color : Color) (width : ℚ) (arrow : String)
  | addCircle (r : Rect) (color : Color) (fill : Option Color) (width : ℚ)
  | addHighlight (r : Rect) (color : Color)
  | addStamp (r : Rect) (stampId : ℕ)
  | deleteAnnot (xref : ℕ)
  | addPolyline (vs : List Pt)
  | setRect (xref : ℕ) (r : Rect)
deriving DecidableEq, Repr

/-- Model of `finish_annotation` (`pdf_viewer.py:927-987`): converts the stored
screen-space gesture endpoints to integer PDF coordinates, applies the
`is_small` substitution (`rect.width() < 5 and rect.height() < 5`,
both in the converted document units), and dispatches one creation call
per tool.  `dialog` models the `QInputDialog.getText` result for the
note/text tools (`none` = cancelled; the source also drops an empty
string because of `if ok and text`). -/
def finishAnnot (hasDoc : Bool) (pageIndex : ℤ) (mode : Option Mode) (props : Props)
    (startPos endPos : Pt) (ox oy scale : ℚ) (dialog : Option String) : List GWCall :=
  if ¬hasDoc ∨ pageIndex < 0 then []
  else
    let sPos := toDocInt startPos ox oy scale
    let ePos := toDocInt endPos ox oy scale
    let rect0 := normRect sPos ePos
    let isSmall := qWidth rect0 < 5 ∧ qHeight rect0 < 5
    let rect : Rect :=
      if isSmall then
        if mode = some .note ∨ mode = some .text ∨ mode = some .stamp ∨ mode = some .circle then
          ⟨sPos.x - 25, sPos.y - 25, sPos.x - 25 + 50, sPos.y - 25 + 50⟩
        else rect0
      else rect0
    if isSmall ∧ ¬(mode = some .note ∨ mode = some .text ∨ mode = some .stamp ∨ mode = some .circle) then
      []
    else
      let stroke := normColor props.strokeColor
      let fill : Option Color := if 0 < props.fillColor.a then some (normColor props.fillColor) else none
      match mode with
      | some .note =>
          match dialog with
          | some t => if t ≠ "" then [.addNote sPos t stroke] else []
          | none => []
      | some .text =>
          match dialog with
          | some t => if t ≠ "" then [.addTextbox rect t props.fontSize stroke props.fontFamily] else []
          | none => []
      | some .line =>
          if isSmall then [] else [.addLine sPos ePos stroke props.thickness props.arrowType]
      | some .circle => [.addCircle rect stroke fill props.thickness]
      | some .highlight =>
          if isSmall then [] else [.addHighlight rect stroke]
      | some .stamp => [.addStamp rect 0]
      | some .select => []
      | none => []

/-- The mutable editor state of `PDFViewer` that the interaction state
machine reads and writes (`pdf_viewer.py:47-75`).  The per-tool
defaults dictionary `tool_properties` is passed separately to
`setAnnotationMode` so that states stay decidably comparable. -/
structure ViewerState where
  mode : Option Mode
  selected : Option Annot
  currentProps : Props
  isDrawing : Bool
  isDragging : Bool
  isResizing : Bool
  startPos : Option Pt
  currentPos : Option Pt
  dragStartPdf : Option Pt
  dragDisplacement : ℚ × ℚ
  originalRect : Option Rect
  originalVertices : Option (List Pt)
  activeHandle : ℤ
  resizeStartRect : Option Rect
  modified : Bool
deriving DecidableEq, Repr

/-- Model of `set_annotation_mode` (`pdf_viewer.py:161-183`): stores the new
mode, clears the selection (emitting `annotation_deselected` if one
existed) and loads the tool's stored properties.  The in-flight gesture
flags `is_drawing` / `is_dragging_annot` / `is_resizing` are not
touched by the source. -/
def setAnnotationMode (toolProps : Mode → Props) (st : ViewerState) (m : Option Mode) :
    ViewerState × List Signal :=
  let signals := if st.selected.isSome then [Signal.deselected] else []
  let props :=
    match m with
    | some mm => if mm ≠ .select then toolProps mm else st.currentProps
    | none => st.currentProps
  ({ st with mode := m, selected := none, currentProps := props }, signals)

/-- The release handler for an in-flight draw
(`pdf_viewer.py:768-771`): if `is_drawing` (and no resize/drag release
fired first), clear the flag and run `finish_annotation` with the
stored `start_pos`; a missing `start_pos` would raise
`AttributeError` inside `finish_annotation`. -/
def drawRelease (st : ViewerState) (endPos : Pt) (hasDoc : Bool) (pageIndex : ℤ)
    (ox oy scale : ℚ) (dialog : Option String) : Except PyErr (ViewerState × List GWCall) :=
  if st.isResizing ∨ st.isDragging ∨ ¬st.isDrawing then .ok (st, [])
  else
    match st.startPos with
    | none => .error .attributeError
    | some sp =>
        .ok ({ st with isDrawing := false },
          finishAnnot hasDoc pageIndex st.mode st.currentProps sp endPos ox oy scale dialog)

/-- The fields reset at the end of a drag release
(`pdf_viewer.py:761-764`). -/
def resetDragFields (st : ViewerState) : ViewerState :=
  { st with dragStartPdf := none, dragDisplacement := (0, 0),
            originalRect := none, originalVertices := none }

/-- The translated vertex list built at drag finalization
(`pdf_viewer.py:717-721`): each original vertex shifted by the net
displacement. -/
def movedVerts (vs : List Pt) (disp : ℚ × ℚ) : List Pt :=
  vs.map fun v => ⟨v.x + disp.1, v.y + disp.2⟩

/-- The annotation created by the vertex-kind drag finalization
(`pdf_viewer.py:723-741`): a PolyLine at the translated vertices (its
rectangle is the engine-computed bounding box), carrying the old
stroke/fill colors, `border.get("width", 1)`, the `info` dictionary and
the opacity.  `line_ends` is never read or reapplied, so the fresh
annotation keeps the engine default `(LE_NONE, LE_NONE)`. -/
def recreatedPolyline (old : Annot) (vs : List Pt) (disp : ℚ × ℚ) (fresh : ℕ) : Annot :=
  ⟨fresh, .polyLine, bbox (movedVerts vs disp), some (movedVerts vs disp),
    ⟨old.style.stroke, old.style.fill, some (old.style.borderWidth.getD 1),
      old.style.opacity, (leNone, leNone), old.style.info⟩⟩

/-- The mouse-release handler for an annotation drag
(`pdf_viewer.py:708-766`).  With a net displacement beyond the 0.1
epsilon in either axis: kinds with code in `[3, 4, 7]` are moved by
delete-and-recreate as a polyline (guarded by the Python truthiness of
`original_vertices`, so `None` and `[]` both skip), copying stroke and
fill colors, border width (`border.get("width", 1)`), the `info`
dictionary and the opacity — line ends are not read or reapplied, so
the new polyline keeps the engine default `(LE_NONE, LE_NONE)`; all
other kinds get `set_rect` on the translated original rectangle.  With
the selection already dead (`None`), the attribute access
`self.selected_annot.type[0]` on line 713 sits outside every
`try` block and raises. -/
def dragRelease (page : Page) (st : ViewerState) (fresh : ℕ) :
    Except PyErr (Page × ViewerState × List GWCall) :=
  if ¬st.isDragging then .ok (page, st, [])
  else
    let dx := st.dragDisplacement.1
    let dy := st.dragDisplacement.2
    let st1 := { st with isDragging := false }
    if dragEps < pyAbs dx ∨ dragEps < pyAbs dy then
      match st1.selected with
      | none => .error .attributeError
      | some old =>
          if old.kind.code = 3 ∨ old.kind.code = 4 ∨ old.kind.code = 7 then
            match st1.originalVertices with
            | some vs =>
                if vs ≠ [] then
                  let newA := recreatedPolyline old vs st.dragDisplacement fresh
                  let page1 := page.filter (fun a => a.xref ≠ old.xref) ++ [newA]
                  .ok (page1,
                    resetDragFields { st1 with selected := some newA, modified := true },
                    [.deleteAnnot old.xref, .addPolyline (movedVerts vs st.dragDisplacement)])
                else
                  .ok (page, resetDragFields { st1 with modified := true }, [])
            | none => .ok (page, resetDragFields { st1 with modified := true }, [])
          else
            match st1.originalRect with
            | some r0 =>
                let nr : Rect := ⟨r0.x0 + dx, r0.y0 + dy, r0.x1 + dx, r0.y1 + dy⟩
                let page1 := page.map (fun a => if a.xref = old.xref then { a with rect := nr } else a)
                .ok (page1, resetDragFields { st1 with modified := true }, [.setRect old.xref nr])
            | none => .ok (page, resetDragFields { st1 with modified := true }, [])
    else
      .ok (page, resetDragFields st1, [])

/-- The `Key_Delete` handler (`pdf_viewer.py:796-804`).  Unlike the
context-menu `delete_annotation`, this call site has no `try` around
`delete_annot`, so a gateway failure propagates out of the event
filter; on success the selection is cleared without emitting
`annotation_deselected`.  The gateway's response to the delete call is
an input (`deleteResult`). -/
def deleteKeyHandler (st : ViewerState) (deleteResult : Except PyErr Unit) :
    Except PyErr (ViewerState × List Signal) :=
  match st.selected with
  | none => .ok (st, [])
  | some _ =>
      match deleteResult with
      | .error e => .error e
      | .ok _ => .ok ({ st with selected := none, modified := true }, [])

/-- The context-menu `delete_annotation` (`pdf_viewer.py:371-381`):
the same deletion wrapped in `try/except`, so a gateway failure is
swallowed (only printed) and the state is left unchanged; on success
the selection clears and `annotation_deselected` is emitted. -/
def deleteAnnotationMenu (st : ViewerState) (deleteResult : Except PyErr Unit) :
    ViewerState × List Signal :=
  match deleteResult with
  | .error _ => (st, [])
  | .ok _ => ({ st with selected := none, modified := true }, [Signal.deselected])

/-- The selection re-binding of `update_display`
(`pdf_viewer.py:132-158`): capture the old selection's `xref`, reload
the page, and if the xref is truthy search the fresh annotation list
for it; the selection becomes the first match or `None`.  No signal is
emitted on either outcome. -/
def rebindSelection (sel : Option Annot) (page : Page) : Option Annot × List Signal :=
  match sel with
  | some a => if a.xref ≠ 0 then (resolveByXref page a.xref, []) else (sel, [])
  | none => (sel, [])

/-- The candidate rectangle of a resize step
(`pdf_viewer.py:605-625`): each handle index moves one or two edges of
the gesture's starting rectangle to the current pointer position
(0=TL, 1=T, 2=TR, 3=R, 4=BR, 5=B, 6=BL, 7=L). -/
def resizeCandidate (r : Rect) (h : ℕ) (p : Pt) : Rect :=
  match h with
  | 0 => ⟨p.x, p.y, r.x1, r.y1⟩
  | 1 => ⟨r.x0, p.y, r.x1, r.y1⟩
  | 2 => ⟨r.x0, p.y, p.x, r.y1⟩
  | 3 => ⟨r.x0, r.y0, p.x, r.y1⟩
  | 4 => ⟨r.x0, r.y0, p.x, p.y⟩
  | 5 => ⟨r.x0, r.y0, r.x1, p.y⟩
  | 6 => ⟨p.x, r.y0, r.x1, p.y⟩
  | 7 => ⟨p.x, r.y0, r.x1, r.y1⟩
  | _ => r

/-- The minimum-size clamp (`pdf_viewer.py:627-637`): if the candidate
is narrower than 10 PDF units the moving vertical edge is pulled back
(left-side handles 0/6/7 move `x0`, the others move `x1`), and then
likewise for the height (top-side handles 0/1/2 move `y0`). -/
def clampWidth (c : Rect) (h : ℕ) : Rect :=
  if fitzW c < 10 then
    if h = 0 ∨ h = 6 ∨ h = 7 then { c with x0 := c.x1 - 10 } else { c with x1 := c.x0 + 10 }
  else c

/-- Second half of the clamp (`pdf_viewer.py:633-637`), applied to the
already width-clamped rectangle. -/
def clampHeight (c : Rect) (h : ℕ) : Rect :=
  if fitzH c < 10 then
    if h = 0 ∨ h = 1 ∨ h = 2 then { c with y0 := c.y1 - 10 } else { c with y1 := c.y0 + 10 }
  else c

/-- The complete minimum-size clamp: width first, then height, exactly
as the two `if` statements run in sequence in the source. -/
def clampMinSize (c : Rect) (h : ℕ) : Rect :=
  clampHeight (clampWidth c h) h

/-- The rectangle a resize move passes to `set_rect`: candidate then
clamp. -/
def resizeNewRect (r : Rect) (h : ℕ) (p : Pt) : Rect :=
  clampMinSize (resizeCandidate r h p) h

/-- The fixed selection accent color `QColor(0, 120, 215)`
(`pdf_viewer.py:69`). -/
def selectionColor : ℕ × ℕ × ℕ := (0, 120, 215)

/-- The fixed handle pixel size `self.handle_size = 8`
(`pdf_viewer.py:70`); never rescaled. -/
def handleSize : ℚ := 8

/-- The drawable output of `draw_selection_frame`: outline rectangle,
its pen color, and the eight handle rectangles (also stored in
`self.handle_rects` for hit-testing). -/
structure FrameOutput where
  outline : Rect
  outlineColor : ℕ × ℕ × ℕ
  handles : List Rect
deriving DecidableEq, Repr

/-- A handle square: `QRectF(p.x - hs/2, p.y - hs/2, hs, hs)`
(`pdf_viewer.py:885`). -/
def mkHandleRect (p : Pt) : Rect :=
  ⟨p.x - handleSize / 2, p.y - handleSize / 2,
    p.x - handleSize / 2 + handleSize, p.y - handleSize / 2 + handleSize⟩

/-- Model of `draw_selection_frame` (`pdf_viewer.py:828-890`): maps the selected
annotation's rectangle (shifted by the in-flight drag displacement)
to screen space, draws its outline in the fixed selection color, and
always computes the eight handles at the four corners and four edge
midpoints — the source has no annotation-kind test anywhere in this
function. -/
def drawSelectionFrame (a : Annot) (dragDisp : ℚ × ℚ) (ox oy scale : ℚ) : FrameOutput :=
  let r := a.rect
  let sx := (r.x0 + dragDisp.1) * scale + ox
  let sy := (r.y0 + dragDisp.2) * scale + oy
  let rect : Rect := ⟨sx, sy, sx + (r.x1 - r.x0) * scale, sy + (r.y1 - r.y0) * scale⟩
  let cx := (rect.x0 + rect.x1) / 2
  let cy := (rect.y0 + rect.y1) / 2
  let positions : List Pt :=
    [⟨rect.x0, rect.y0⟩, ⟨cx, rect.y0⟩, ⟨rect.x1, rect.y0⟩, ⟨rect.x1, cy⟩,
     ⟨rect.x1, rect.y1⟩, ⟨cx, rect.y1⟩, ⟨rect.x0, rect.y1⟩, ⟨rect.x0, cy⟩]
  ⟨rect, selectionColor, positions.map mkHandleRect⟩

/-- The resize-handle hit test at pointer-down
(`pdf_viewer.py:492-501`): skipped entirely (`is_line_like`) when the
selected annotation's type code is one of `[3, 4, 7, 8]`; otherwise the
first stored handle rectangle containing the screen point wins. -/
def resizeHandleHitIndex (sel : Option Annot) (handleRects : List Rect) (p : Pt) : Option ℕ :=
  match sel with
  | none => none
  | some a =>
      if a.kind.code = 3 ∨ a.kind.code = 4 ∨ a.kind.code = 7 ∨ a.kind.code = 8 then none
      else handleRects.findIdx? (fun hr => rectContainsPt hr p)

/-- The select-mode pointer-down handler (`pdf_viewer.py:483-553`):
resize-handle check first; then re-affirm the existing selection if the
point is inside it; otherwise reverse hit-test the page (topmost
first), emitting `annotation_deselected` when a previous selection
finds no successor.  A hit enters the dragging sub-state, capturing the
original rectangle and — for type codes `[3, 4, 7, 8]` — the vertex
list (`list(self.selected_annot.vertices)`, which raises `TypeError`
when `vertices` is `None`, as for Square and Highlight).  A hit emits
`annotation_selected(type_name, ...)`. -/
def pressSelect (st : ViewerState) (page : Page) (handleRects : List Rect)
    (screenPos : Pt) (ox oy scale : ℚ) : Except PyErr (ViewerState × List Signal) :=
  let fp := toDoc screenPos ox oy scale
  match resizeHandleHitIndex st.selected handleRects screenPos, st.selected with
  | some i, some a =>
      .ok ({ st with activeHandle := (i : ℤ), isResizing := true,
                     resizeStartRect := some a.rect, dragStartPdf := some fp }, [])
  | _, _ =>
      let alreadyHit :=
        match st.selected with
        | some a => rectContainsPt a.rect fp
        | none => false
      let old := st.selected
      let sel' := if alreadyHit then st.selected
                  else page.reverse.find? (fun an => rectContainsPt an.rect fp)
      let sig1 : List Signal :=
        if !alreadyHit && old.isSome && sel'.isNone then [Signal.deselected] else []
      match sel' with
      | some a =>
          let overts : Except PyErr (Option (List Pt)) :=
            if a.kind.code = 3 ∨ a.kind.code = 4 ∨ a.kind.code = 7 ∨ a.kind.code = 8 then
              match a.vertices with
              | some vs => .ok (some vs)
              | none => .error .typeError
            else .ok none
          match overts with
          | .error e => .error e
          | .ok ov =>
              .ok ({ st with selected := some a, isDragging := true,
                             dragStartPdf := some fp, dragDisplacement := (0, 0),
                             originalRect := some a.rect, originalVertices := ov },
                   sig1 ++ [Signal.selected a.kind.name])
      | none => .ok ({ st with selected := none }, sig1)

/-- Keyword parameters accepted by `PDFHandler.add_note`
(`pdf_handler.py:373`): `def add_note(self, page_index, position,
content, username=None)`. -/
def addNoteParams : List String := ["page_index", "position", "content", "username"]

/-- Keyword arguments `finish_annotation` passes to
`PDFHandler.add_note` (`pdf_viewer.py:963`): `color=stroke`. -/
def viewerAddNoteKeywords : List String := ["color"]

/-- Line-end pair produced by the `arrow_type` strings
(`pdf_viewer.py:241-248`). -/
def lineEndsOfArrow (arrow : String) : ℕ × ℕ :=
  if arrow = "start" then (leClosedArrow, leNone)
  else if arrow = "end" then (leNone, leClosedArrow)
  else if arrow = "both" then (leClosedArrow, leClosedArrow)
  else (leNone, leNone)

/-- Effect of one creation call on the page.

`addNote` targets `PDFHandler.add_note`, which is in the source but
accepts no `color` keyword (`addNoteParams`), while the viewer passes
one (`viewerAddNoteKeywords`): the Python call raises `TypeError`
before any annotation is created.

Modelled from the spec: `PDFHandler.add_textbox`, `add_line`,
`add_circle`, `add_highlight` and `add_stamp` are called by the viewer
but absent from `src/core/pdf_handler.py`; per spec §4.2
(`create(page, kind, geometry, style) -> Annotation`) each appends
exactly one new annotation of its kind at the given geometry with the
given style. -/
def runCreateCall (page : Page) (fresh : ℕ) : GWCall → Except PyErr Page
  | .addNote _ _ _ =>
      if viewerAddNoteKeywords.all (fun k => k ∈ addNoteParams) then .ok page
      else .error .typeError
  | .addTextbox r _ _ c _ =>
      .ok (page ++ [⟨fresh, .freeText, r, none, ⟨some c, none, some 1, 1, (leNone, leNone), ""⟩⟩])
  | .addLine p1 p2 c w arrow =>
      .ok (page ++ [⟨fresh, .line, bbox [p1, p2], some [p1, p2],
        ⟨some c, none, some w, 1, lineEndsOfArrow arrow, ""⟩⟩])
  | .addCircle r c f w =>
      .ok (page ++ [⟨fresh, .circle, r, none, ⟨some c, f, some w, 1, (leNone, leNone), ""⟩⟩])
  | .addHighlight r c =>
      .ok (page ++ [⟨fresh, .highlight, r, none, ⟨some c, none, some 1, 1, (leNone, leNone), ""⟩⟩])
  | .addStamp r _ =>
      .ok (page ++ [⟨fresh, .stamp, r, none, ⟨none, none, some 1, 1, (leNone, leNone), ""⟩⟩])
  | .deleteAnnot x => .ok (page.filter (fun a => a.xref ≠ x))
  | .addPolyline vs =>
      .ok (page ++ [⟨fresh, .polyLine, bbox vs, some vs, ⟨none, none, some 1, 1, (leNone, leNone), ""⟩⟩])
  | .setRect x r => .ok (page.map (fun a => if a.xref = x then { a with rect := r } else a))

/-- Run a list of creation calls left to right, stopping at the first
Python exception (as control flow does in `finish_annotation`). -/
def runCreateCalls (page : Page) (fresh : ℕ) : List GWCall → Except PyErr Page
  | [] => .ok page
  | c :: cs =>
      match runCreateCall page fresh c with
      | .error e => .error e
      | .ok page1 => runCreateCalls page1 (fresh + 1) cs

/-- The rectangle payload of a rectangle-based creation call (`none`
for the point-based `add_note`, the endpoint-based `add_line` and the
mutation calls). -/
def createRectOf : GWCall → Option Rect
  | .addTextbox r _ _ _ _ => some r
  | .addCircle r _ _ _ => some r
  | .addHighlight r _ => some r
  | .addStamp r _ => some r
  | _ => none

/-- The annotation kind a creation call would produce. -/
def createKindOf : GWCall → Option AnnotKind
  | .addNote _ _ _ => some .text
  | .addTextbox _ _ _ _ _ => some .freeText
  | .addLine _ _ _ _ _ => some .line
  | .addCircle _ _ _ _ => some .circle
  | .addHighlight _ _ => some .highlight
  | .addStamp _ _ => some .stamp
  | _ => none

/-- The annotation kind each drawing tool creates. -/
def toolKind : Mode → Option AnnotKind
  | .note => some .text
  | .text => some .freeText
  | .line => some .line
  | .circle => some .circle
  | .highlight => some .highlight
  | .stamp => some .stamp
  | .select => none

/-! ### Concrete fixtures used by counterexamples and witnesses -/

/-- A Line annotation style with a closed-arrow decoration at the start
(`arrow_type = "start"`). -/
def exStyleArrowStart : Style :=
  ⟨some ⟨1, 0, 0⟩, none, some 2, 1, (leClosedArrow, leNone), "line-info"⟩

/-- A Line annotation with two vertices and a start arrow. -/
def exLineAnnot : Annot :=
  ⟨7, .line, ⟨10, 10, 60, 60⟩, some [⟨10, 10⟩, ⟨60, 60⟩], exStyleArrowStart⟩

/-- A Circle annotation covering `(50,50)-(150,150)`. -/
def exCircleAnnot : Annot :=
  ⟨9, .circle, ⟨50, 50, 150, 150⟩, none, ⟨some ⟨1, 0, 0⟩, none, some 2, 1, (leNone, leNone), ""⟩⟩

/-- The editor state right after `__init__` with the select tool
active. -/
def baseState : ViewerState :=
  { mode := some .select, selected := none, currentProps := defaultToolProps .select,
    isDrawing := false, isDragging := false, isResizing := false,
    startPos := none, currentPos := none, dragStartPdf := none,
    dragDisplacement := (0, 0), originalRect := none, originalVertices := none,
    activeHandle := -1, resizeStartRect := none, modified := false }

/-- Mid-drag state: `exLineAnnot` selected and dragged by `(5, 0)`. -/
def exDragLineState : ViewerState :=
  { baseState with
    selected := some exLineAnnot, isDragging := true,
    dragStartPdf := some ⟨10, 10⟩, dragDisplacement := (5, 0),
    originalRect := some exLineAnnot.rect,
    originalVertices := some [⟨10, 10⟩, ⟨60, 60⟩] }

/-- Mid-draw state: line tool active, rubber band started at
`(10, 10)`. -/
def exDrawLineState : ViewerState :=
  { baseState with
    mode := some .line, currentProps := defaultToolProps .line,
    isDrawing := true, startPos := some ⟨10, 10⟩, currentPos := some ⟨10, 10⟩ }

/-- Variant of `exDragLineState` with zero net displacement (pointer released at
the down-position). -/
def exDragLineState0 : ViewerState :=
  { exDragLineState with dragDisplacement := (0, 0) }

/-! ### Helper lemmas -/

theorem pyAbs_eq_abs (q : ℚ) : pyAbs q = |q| := by
  unfold pyAbs
  split_ifs with h
  · rw [abs_of_neg (not_le.mp (fun hq => absurd (Rat.num_nonneg.mpr hq) (not_le.mpr h)))]
  · rw [abs_of_nonneg (Rat.num_nonneg.mp (not_lt.mp h))]

theorem dragEps_eq : dragEps = 1/10 := by
  rw [dragEps, Rat.mkRat_eq_divInt, Rat.divInt_eq_div]
  norm_num

theorem find?_xref_filter_ne (l : List Annot) (x : ℕ) :
    (l.filter (fun a => a.xref ≠ x)).find? (fun a => a.xref = x) = none := by
  rw [List.find?_eq_none]
  intro a ha
  rw [List.mem_filter] at ha
  simpa using ha.2

theorem find?_xref_not_mem (l : List Annot) (x : ℕ) (h : x ∉ l.map (·.xref)) :
    l.find? (fun a => a.xref = x) = none := by
  rw [List.find?_eq_none]
  intro a ha
  simp only [decide_eq_true_eq]
  intro hx
  exact h (List.mem_map.mpr ⟨a, ha, hx⟩)

theorem find?_xref_not_mem_filter (l : List Annot) (p : Annot → Bool) (x : ℕ)
    (h : x ∉ l.map (·.xref)) :
    (l.filter p).find? (fun a => a.xref = x) = none := by
  refine find?_xref_not_mem _ _ (fun hmem => h ?_)
  rcases List.mem_map.mp hmem with ⟨a, ha, hx⟩
  exact List.mem_map.mpr ⟨a, (List.mem_filter.mp ha).1, hx⟩

theorem fitzW_clampWidth (c : Rect) (h : ℕ) :
    fitzW (clampWidth c h) = if fitzW c < 10 then 10 else fitzW c := by
  unfold clampWidth
  split_ifs <;> simp [fitzW, pyAbs_eq_abs]

theorem fitzH_clampWidth (c : Rect) (h : ℕ) :
    fitzH (clampWidth c h) = fitzH c := by
  unfold clampWidth
  split_ifs <;> rfl

theorem fitzW_clampHeight (c : Rect) (h : ℕ) :
    fitzW (clampHeight c h) = fitzW c := by
  unfold clampHeight
  split_ifs <;> rfl

theorem fitzH_clampHeight (c : Rect) (h : ℕ) :
    fitzH (clampHeight c h) = if fitzH c < 10 then 10 else fitzH c := by
  unfold clampHeight
  split_ifs <;> simp [fitzH, pyAbs_eq_abs]

theorem fitzW_clampMinSize (c : Rect) (h : ℕ) :
    fitzW (clampMinSize c h) = if fitzW c < 10 then 10 else fitzW c := by
  rw [clampMinSize, fitzW_clampHeight, fitzW_clampWidth]

theorem fitzH_clampMinSize (c : Rect) (h : ℕ) :
    fitzH (clampMinSize c h) = if fitzH c < 10 then 10 else fitzH c := by
  rw [clampMinSize, fitzH_clampHeight, fitzH_clampWidth]

/-! ### Claim theorems -/

/-- C4: for every resize gesture and every handle index 0–7, if the
candidate rectangle computed from the original rectangle and the
pointer position would be narrower or shorter than 10 document units,
the moving edge is clamped so that that dimension of the rectangle
passed to `set_rect` equals exactly 10; the applied width and height
are never below 10. -/
theorem resize_clamps_min_size (r : Rect) (h : ℕ) (p : Pt) (_hh : h ≤ 7) :
    (fitzW (resizeCandidate r h p) < 10 → fitzW (resizeNewRect r h p) = 10) ∧
    (fitzH (resizeCandidate r h p) < 10 → fitzH (resizeNewRect r h p) = 10) ∧
    10 ≤ fitzW (resizeNewRect r h p) ∧ 10 ≤ fitzH (resizeNewRect r h p) := by
  refine ⟨?_, ?_, ?_, ?_⟩
  · intro hw
    rw [resizeNewRect, fitzW_clampMinSize, if_pos hw]
  · intro hht
    rw [resizeNewRect, fitzH_clampMinSize, if_pos hht]
  · rw [resizeNewRect, fitzW_clampMinSize]
    split_ifs with h1
    · norm_num
    · linarith
  · rw [resizeNewRect, fitzH_clampMinSize]
    split_ifs with h1
    · norm_num
    · linarith

/-- Witness for `resize_clamps_min_size`: dragging the right edge
(handle 3) of `(0,0)-(100,100)` to `x = 2` yields a 2-wide candidate,
clamped to the exactly-10-wide rectangle `(0,0)-(10,100)`. -/
theorem resize_clamps_min_size_app :
    (3 : ℕ) ≤ 7 ∧
    ((fitzW (resizeCandidate ⟨0, 0, 100, 100⟩ 3 ⟨2, 50⟩) < 10 →
        fitzW (resizeNewRect ⟨0, 0, 100, 100⟩ 3 ⟨2, 50⟩) = 10) ∧
     (fitzH (resizeCandidate ⟨0, 0, 100, 100⟩ 3 ⟨2, 50⟩) < 10 →
        fitzH (resizeNewRect ⟨0, 0, 100, 100⟩ 3 ⟨2, 50⟩) = 10) ∧
     10 ≤ fitzW (resizeNewRect ⟨0, 0, 100, 100⟩ 3 ⟨2, 50⟩) ∧
     10 ≤ fitzH (resizeNewRect ⟨0, 0, 100, 100⟩ 3 ⟨2, 50⟩)) :=
  ⟨by norm_num, resize_clamps_min_size ⟨0, 0, 100, 100⟩ 3 ⟨2, 50⟩ (by norm_num)⟩

/-- C8: a select-mode drag released with net displacement of at most
0.1 document units in both axes issues no gateway call at all and
leaves the page (hence the selected annotation's geometry)
unchanged. -/
theorem zero_motion_drag_no_mutation (page : Page) (st : ViewerState) (fresh : ℕ)
    (hdrag : st.isDragging = true)
    (hdx : pyAbs st.dragDisplacement.1 ≤ dragEps) (hdy : pyAbs st.dragDisplacement.2 ≤ dragEps) :
    dragRelease page st fresh = .ok (page, resetDragFields { st with isDragging := false }, []) := by
  have hmov : ¬(dragEps < pyAbs st.dragDisplacement.1 ∨ dragEps < pyAbs st.dragDisplacement.2) := by
    rintro (h | h) <;> linarith
  simp [dragRelease, hdrag]
  intro h
  exact absurd h hmov

/-- Witness for `zero_motion_drag_no_mutation`: the fixture drag state
with displacement `(0, 0)`. -/
theorem zero_motion_drag_no_mutation_app :
    (exDragLineState0.isDragging = true ∧
     pyAbs exDragLineState0.dragDisplacement.1 ≤ dragEps ∧
     pyAbs exDragLineState0.dragDisplacement.2 ≤ dragEps) ∧
    dragRelease [exLineAnnot] exDragLineState0 99
      = .ok ([exLineAnnot], resetDragFields { exDragLineState0 with isDragging := false }, []) :=
  ⟨⟨by decide, by decide, by decide⟩,
    zero_motion_drag_no_mutation [exLineAnnot] exDragLineState0 99 (by decide) (by decide) (by decide)⟩

/-- C7 (amended): `set_annotation_mode` clears the selection (emitting
the deselect signal when one existed) but leaves every in-flight
gesture flag — `is_drawing`, `is_dragging_annot`, `is_resizing` —
untouched, so a mode switch does not discard an in-flight gesture. -/
theorem mode_switch_keeps_gesture_flags (tp : Mode → Props) (st : ViewerState) (m : Option Mode) :
    (setAnnotationMode tp st m).1.isDrawing = st.isDrawing ∧
    (setAnnotationMode tp st m).1.isDragging = st.isDragging ∧
    (setAnnotationMode tp st m).1.isResizing = st.isResizing ∧
    (setAnnotationMode tp st m).1.selected = none ∧
    (setAnnotationMode tp st m).2 = (if st.selected.isSome then [Signal.deselected] else []) := by
  unfold setAnnotationMode
  cases m <;> simp

/-- Counterexample to C7 as stated: switching tool mode from `line` to
`circle` in the middle of a rubber-band draw leaves `is_drawing` set,
and the subsequent pointer release still reaches `finish_annotation`,
which issues a creation call (a circle, under the new mode) — the
cancelled draw does result in a `create`. -/
theorem mode_switch_then_release_creates :
    ((setAnnotationMode defaultToolProps exDrawLineState (some .circle)).1.isDrawing = true) ∧
    ((drawRelease (setAnnotationMode defaultToolProps exDrawLineState (some .circle)).1
        ⟨200, 200⟩ true 0 0 0 1 none).map Prod.snd
      = .ok [GWCall.addCircle ⟨10, 10, 200, 200⟩ ⟨1, 0, 0⟩ none 2]) := by
  constructor
  · rfl
  · norm_num [drawRelease, setAnnotationMode, exDrawLineState, baseState, finishAnnot,
      toDocInt, pyInt, normRect, qWidth, qHeight, normColor, defaultToolProps]
    rfl

/-- C9 (amended): `draw_selection_frame` always computes the outline in
the fixed accent color and all eight fixed-size handles — including for
the vertex-kind annotations (type codes 3, 4, 7, 8); those kinds are
excluded from resizing only at pointer-down, where the handle
hit-test is skipped for them. -/
theorem selection_frame_always_eight_handles (a : Annot) (dx dy ox oy scale : ℚ)
    (hrs : List Rect) (p : Pt)
    (hk : a.kind.code = 3 ∨ a.kind.code = 4 ∨ a.kind.code = 7 ∨ a.kind.code = 8) :
    (drawSelectionFrame a (dx, dy) ox oy scale).handles.length = 8 ∧
    (∀ hr ∈ (drawSelectionFrame a (dx, dy) ox oy scale).handles,
      qWidth hr = 8 ∧ qHeight hr = 8) ∧
    (drawSelectionFrame a (dx, dy) ox oy scale).outlineColor = (0, 120, 215) ∧
    resizeHandleHitIndex (some a) hrs p = none := by
  refine ⟨rfl, ?_, rfl, ?_⟩
  · intro hr hmem
    simp only [drawSelectionFrame, List.mem_map, List.mem_cons, List.not_mem_nil, or_false]
      at hmem
    obtain ⟨q, hq, rfl⟩ := hmem
    constructor <;> simp [mkHandleRect, qWidth, qHeight, handleSize]
  · simp [resizeHandleHitIndex, hk]

/-- Witness for `selection_frame_always_eight_handles`: the Line
fixture annotation still gets its eight 8-pixel handles drawn. -/
theorem selection_frame_always_eight_handles_app :
    (exLineAnnot.kind.code = 3 ∨ exLineAnnot.kind.code = 4 ∨
     exLineAnnot.kind.code = 7 ∨ exLineAnnot.kind.code = 8) ∧
    ((drawSelectionFrame exLineAnnot (0, 0) 0 0 1).handles.length = 8 ∧
     (∀ hr ∈ (drawSelectionFrame exLineAnnot (0, 0) 0 0 1).handles,
       qWidth hr = 8 ∧ qHeight hr = 8) ∧
     (drawSelectionFrame exLineAnnot (0, 0) 0 0 1).outlineColor = (0, 120, 215) ∧
     resizeHandleHitIndex (some exLineAnnot) [] ⟨0, 0⟩ = none) :=
  ⟨by decide,
    selection_frame_always_eight_handles exLineAnnot 0 0 0 0 1 [] ⟨0, 0⟩ (by decide)⟩

/-- Counterexample to C9 as stated: the renderer computes all eight
handles even for a vertex-kind (Line) selection, rather than none. -/
theorem vertex_kind_gets_handles :
    exLineAnnot.kind = .line ∧
    (drawSelectionFrame exLineAnnot (0, 0) 0 0 1).handles.length = 8 ∧
    (drawSelectionFrame exLineAnnot (0, 0) 0 0 1).handles.length ≠ 0 := by
  decide

/-- C1 (amended): finalizing a vertex-kind drag whose displacement
exceeds the 0.1 epsilon in either axis deletes the old annotation and
creates a new PolyLine at the translated vertices, reapplying the
captured stroke/fill colors, border width, info and opacity — but not
the line-end decorations, which reset to none — and repoints the
selection at the new identity; the old identity no longer resolves. -/
theorem drag_vertex_recreate_translates (page : Page) (st : ViewerState) (fresh : ℕ)
    (old : Annot) (vs : List Pt)
    (hdrag : st.isDragging = true)
    (hsel : st.selected = some old)
    (hkind : old.kind = .line ∨ old.kind = .polyLine)
    (hverts : st.originalVertices = some vs)
    (hne : vs ≠ [])
    (hmove : dragEps < pyAbs st.dragDisplacement.1 ∨ dragEps < pyAbs st.dragDisplacement.2)
    (hmem : old ∈ page)
    (hfresh : fresh ∉ page.map (·.xref)) :
    dragRelease page st fresh = .ok
        (page.filter (fun a => a.xref ≠ old.xref) ++
           [recreatedPolyline old vs st.dragDisplacement fresh],
         resetDragFields { st with
           isDragging := false, modified := true,
           selected := some (recreatedPolyline old vs st.dragDisplacement fresh) },
         [.deleteAnnot old.xref, .addPolyline (movedVerts vs st.dragDisplacement)]) ∧
    resolveByXref (page.filter (fun a => a.xref ≠ old.xref) ++
        [recreatedPolyline old vs st.dragDisplacement fresh]) old.xref = none ∧
    resolveByXref (page.filter (fun a => a.xref ≠ old.xref) ++
        [recreatedPolyline old vs st.dragDisplacement fresh]) fresh
      = some (recreatedPolyline old vs st.dragDisplacement fresh) ∧
    (recreatedPolyline old vs st.dragDisplacement fresh).vertices
      = some (vs.map fun v => ⟨v.x + st.dragDisplacement.1, v.y + st.dragDisplacement.2⟩) ∧
    (recreatedPolyline old vs st.dragDisplacement fresh).style
      = ⟨old.style.stroke, old.style.fill, some (old.style.borderWidth.getD 1),
          old.style.opacity, (leNone, leNone), old.style.info⟩ := by
  have hcode : old.kind.code = 3 ∨ old.kind.code = 4 ∨ old.kind.code = 7 := by
    rcases hkind with h | h <;> simp [h, AnnotKind.code]
  have hfx : fresh ≠ old.xref := by
    intro h
    exact hfresh (by rw [h]; exact List.mem_map.mpr ⟨old, hmem, rfl⟩)
  refine ⟨?_, ?_, ?_, rfl, rfl⟩
  · simp [dragRelease, hdrag, hsel, hverts, hne, hcode, hmove]
  · rw [resolveByXref, List.find?_append, find?_xref_filter_ne]
    simp [recreatedPolyline, hfx]
  · rw [resolveByXref, List.find?_append, find?_xref_not_mem_filter page _ fresh hfresh]
    simp [recreatedPolyline]

/-- Witness for `drag_vertex_recreate_translates`: the fixture Line
annotation dragged by `(5, 0)`. -/
theorem drag_vertex_recreate_translates_app :
    (exDragLineState.isDragging = true ∧
     exDragLineState.selected = some exLineAnnot ∧
     (exLineAnnot.kind = .line ∨ exLineAnnot.kind = .polyLine) ∧
     exDragLineState.originalVertices = some [⟨10, 10⟩, ⟨60, 60⟩] ∧
     ([⟨10, 10⟩, ⟨60, 60⟩] : List Pt) ≠ [] ∧
     (dragEps < pyAbs exDragLineState.dragDisplacement.1 ∨
      dragEps < pyAbs exDragLineState.dragDisplacement.2) ∧
     exLineAnnot ∈ [exLineAnnot] ∧
     99 ∉ [exLineAnnot].map (·.xref)) ∧
    (dragRelease [exLineAnnot] exDragLineState 99 = .ok
        ([exLineAnnot].filter (fun a => a.xref ≠ exLineAnnot.xref) ++
           [recreatedPolyline exLineAnnot [⟨10, 10⟩, ⟨60, 60⟩] exDragLineState.dragDisplacement 99],
         resetDragFields { exDragLineState with
           isDragging := false, modified := true,
           selected := some (recreatedPolyline exLineAnnot [⟨10, 10⟩, ⟨60, 60⟩]
             exDragLineState.dragDisplacement 99) },
         [.deleteAnnot exLineAnnot.xref,
          .addPolyline (movedVerts [⟨10, 10⟩, ⟨60, 60⟩] exDragLineState.dragDisplacement)]) ∧
     resolveByXref ([exLineAnnot].filter (fun a => a.xref ≠ exLineAnnot.xref) ++
        [recreatedPolyline exLineAnnot [⟨10, 10⟩, ⟨60, 60⟩] exDragLineState.dragDisplacement 99])
        exLineAnnot.xref = none ∧
     resolveByXref ([exLineAnnot].filter (fun a => a.xref ≠ exLineAnnot.xref) ++
        [recreatedPolyline exLineAnnot [⟨10, 10⟩, ⟨60, 60⟩] exDragLineState.dragDisplacement 99]) 99
      = some (recreatedPolyline exLineAnnot [⟨10, 10⟩, ⟨60, 60⟩] exDragLineState.dragDisplacement 99) ∧
     (recreatedPolyline exLineAnnot [⟨10, 10⟩, ⟨60, 60⟩] exDragLineState.dragDisplacement 99).vertices
      = some (([⟨10, 10⟩, ⟨60, 60⟩] : List Pt).map fun v =>
          (⟨v.x + exDragLineState.dragDisplacement.1,
            v.y + exDragLineState.dragDisplacement.2⟩ : Pt)) ∧
     (recreatedPolyline exLineAnnot [⟨10, 10⟩, ⟨60, 60⟩] exDragLineState.dragDisplacement 99).style
      = ⟨exLineAnnot.style.stroke, exLineAnnot.style.fill,
          some (exLineAnnot.style.borderWidth.getD 1),
          exLineAnnot.style.opacity, (leNone, leNone), exLineAnnot.style.info⟩) :=
  ⟨⟨rfl, rfl, Or.inl rfl, rfl, by simp, Or.inl (by decide), by simp, by simp [exLineAnnot]⟩,
    drag_vertex_recreate_translates [exLineAnnot] exDragLineState 99 exLineAnnot
      [⟨10, 10⟩, ⟨60, 60⟩] rfl rfl (Or.inl rfl) rfl (by simp) (Or.inl (by decide))
      (by simp) (by simp [exLineAnnot])⟩

/-- Counterexample to C1 as stated: the claim includes the line-end
decorations among the reapplied style, but the recreated annotation's
line ends are the default `(none, none)` instead of the original
`(closed-arrow, none)`. -/
theorem drag_vertex_recreate_drops_line_ends :
    exLineAnnot.style.lineEnds = (leClosedArrow, leNone) ∧
    (dragRelease [exLineAnnot] exDragLineState 99).map
        (fun r => r.2.1.selected.map (fun a => a.style.lineEnds))
      = .ok (some (leNone, leNone)) ∧
    (leNone, leNone) ≠ (leClosedArrow, leNone) := by
  refine ⟨rfl, ?_, by decide⟩
  norm_num [dragRelease, exDragLineState, exLineAnnot, baseState, pyAbs, recreatedPolyline,
    AnnotKind.code, exStyleArrowStart, dragEps_eq]
  simp [Except.map, resetDragFields]

/-- C10: a finalized drag of a Line annotation recreates it through
`add_polyline_annot`, so the surviving selection reference is a
PolyLine whose `fitz` type name is `"PolyLine"`, not `"Line"`. -/
theorem line_drag_recreates_as_polyline (page : Page) (st : ViewerState) (fresh : ℕ)
    (old : Annot) (vs : List Pt)
    (hdrag : st.isDragging = true)
    (hsel : st.selected = some old)
    (hkind : old.kind = .line)
    (hverts : st.originalVertices = some vs)
    (hne : vs ≠ [])
    (hmove : dragEps < pyAbs st.dragDisplacement.1 ∨ dragEps < pyAbs st.dragDisplacement.2) :
    (dragRelease page st fresh).map (fun r => r.2.1.selected.map (fun a => (a.kind, a.kind.name)))
      = .ok (some (.polyLine, "PolyLine")) ∧
    old.kind.name = "Line" := by
  have hcode : old.kind.code = 3 ∨ old.kind.code = 4 ∨ old.kind.code = 7 := by
    simp [hkind, AnnotKind.code]
  refine ⟨?_, by simp [hkind, AnnotKind.name]⟩
  simp [dragRelease, hdrag, hsel, hverts, hne, hcode, hmove, recreatedPolyline,
    resetDragFields, AnnotKind.name, Except.map]

/-- Witness for `line_drag_recreates_as_polyline`: the fixture Line
annotation dragged by `(5, 0)` comes back as a PolyLine. -/
theorem line_drag_recreates_as_polyline_app :
    (exDragLineState.isDragging = true ∧
     exDragLineState.selected = some exLineAnnot ∧
     exLineAnnot.kind = .line ∧
     exDragLineState.originalVertices = some [⟨10, 10⟩, ⟨60, 60⟩] ∧
     ([⟨10, 10⟩, ⟨60, 60⟩] : List Pt) ≠ [] ∧
     (dragEps < pyAbs exDragLineState.dragDisplacement.1 ∨
      dragEps < pyAbs exDragLineState.dragDisplacement.2)) ∧
    ((dragRelease [exLineAnnot] exDragLineState 99).map
        (fun r => r.2.1.selected.map (fun a => (a.kind, a.kind.name)))
      = .ok (some (.polyLine, "PolyLine")) ∧
     exLineAnnot.kind.name = "Line") :=
  ⟨⟨rfl, rfl, rfl, rfl, by simp, Or.inl (by decide)⟩,
    line_drag_recreates_as_polyline [exLineAnnot] exDragLineState 99 exLineAnnot
      [⟨10, 10⟩, ⟨60, 60⟩] rfl rfl rfl rfl (by simp) (Or.inl (by decide))⟩

/-- C3 (amended): when the re-render re-binding of `update_display`
finds no annotation with the remembered xref, the selection becomes
empty and no notification at all is emitted by that path, and a
Delete-key press on the now-empty selection is a complete no-op. -/
theorem rebind_failure_clears_silently (a : Annot) (page : Page) (st : ViewerState)
    (r : Except PyErr Unit)
    (hx : a.xref ≠ 0) (hfail : resolveByXref page a.xref = none)
    (hst : st.selected = none) :
    rebindSelection (some a) page = (none, []) ∧
    deleteKeyHandler st r = .ok (st, []) := by
  constructor
  · simp [rebindSelection, hx, hfail]
  · simp [deleteKeyHandler, hst]

/-- Witness for `rebind_failure_clears_silently`: the Line fixture's
xref 7 resolves to nothing on an empty page. -/
theorem rebind_failure_clears_silently_app :
    (exLineAnnot.xref ≠ 0 ∧ resolveByXref [] exLineAnnot.xref = none ∧
     baseState.selected = none) ∧
    (rebindSelection (some exLineAnnot) [] = (none, []) ∧
     deleteKeyHandler baseState (.error .gatewayError) = .ok (baseState, [])) :=
  ⟨⟨by decide, rfl, rfl⟩,
    rebind_failure_clears_silently exLineAnnot [] baseState (.error .gatewayError)
      (by decide) rfl rfl⟩

/-- Counterexample to C3 as stated: after a failed re-bind the
selection is empty but the emitted signal list of the re-render path is
empty — no `annotation_deselected` fires — and the next selection
notification actually emitted (here, a subsequent click that lands on
another annotation) is `annotation_selected`, not the promised
deselect. -/
theorem rebind_failure_no_deselect_signal :
    rebindSelection (some exLineAnnot) [] = (none, []) ∧
    (pressSelect baseState [exCircleAnnot] [] ⟨60, 60⟩ 0 0 1).map Prod.snd
      = .ok [Signal.selected "Circle"] := by
  constructor
  · rfl
  · norm_num [pressSelect, resizeHandleHitIndex, toDoc, rectContainsPt, exCircleAnnot,
      baseState, AnnotKind.code, AnnotKind.name]
    rfl

/-- C5 (amended): for the Line and Highlight tools, a gesture whose
converted document-space rectangle (screen points mapped through the
centering offset and zoom scale, with integer truncation) is under 5
units in width AND under 5 units in height creates no annotation; the
conjunction is the source's `is_small` test, so a gesture small in only
one axis proceeds.  At scale 1 and offset 0 the document measure
coincides with screen pixels. -/
theorem small_doc_gesture_creates_nothing (hasDoc : Bool) (pageIdx : ℤ) (m : Mode)
    (props : Props) (s e : Pt) (ox oy scale : ℚ) (dlg : Option String)
    (hm : m = .line ∨ m = .highlight)
    (hw : qWidth (normRect (toDocInt s ox oy scale) (toDocInt e ox oy scale)) < 5)
    (hh : qHeight (normRect (toDocInt s ox oy scale) (toDocInt e ox oy scale)) < 5) :
    finishAnnot hasDoc pageIdx (some m) props s e ox oy scale dlg = [] := by
  rcases hm with rfl | rfl <;>
    · unfold finishAnnot
      split_ifs with h1 h2 <;> simp_all

/-- Witness for `small_doc_gesture_creates_nothing`: a 2×1-pixel line
gesture at scale 1, offset 0. -/
theorem small_doc_gesture_creates_nothing_app :
    ((Mode.line = Mode.line ∨ Mode.line = Mode.highlight) ∧
     qWidth (normRect (toDocInt ⟨10, 10⟩ 0 0 1) (toDocInt ⟨12, 11⟩ 0 0 1)) < 5 ∧
     qHeight (normRect (toDocInt ⟨10, 10⟩ 0 0 1) (toDocInt ⟨12, 11⟩ 0 0 1)) < 5) ∧
    finishAnnot true 0 (some .line) (defaultToolProps .line) ⟨10, 10⟩ ⟨12, 11⟩ 0 0 1 none = [] :=
  ⟨⟨Or.inl rfl,
      by norm_num [toDocInt, pyInt, normRect, qWidth],
      by norm_num [toDocInt, pyInt, normRect, qHeight]⟩,
    small_doc_gesture_creates_nothing true 0 .line (defaultToolProps .line)
      ⟨10, 10⟩ ⟨12, 11⟩ 0 0 1 none (Or.inl rfl)
      (by norm_num [toDocInt, pyInt, normRect, qWidth])
      (by norm_num [toDocInt, pyInt, normRect, qHeight])⟩

/-- Counterexample to C5 as stated: the 5-unit threshold is applied in
document units, not screen pixels.  At zoom scale 1/10, a gesture of
only 4 screen pixels in each axis converts to 40 document units, fails
the `is_small` test, and creates a line annotation — where the claim
promises zero annotations for every gesture under 5 screen pixels in
both axes. -/
theorem small_screen_gesture_creates_line :
    (pyAbs ((4 : ℚ) - 0) < 5 ∧ pyAbs ((4 : ℚ) - 0) < 5) ∧
    finishAnnot true 0 (some .line) (defaultToolProps .line) ⟨0, 0⟩ ⟨4, 4⟩ 0 0 (1/10) none
      = [.addLine ⟨0, 0⟩ ⟨40, 40⟩ ⟨1, 0, 0⟩ 2 "none"] := by
  constructor
  · constructor <;> norm_num [pyAbs]
  · norm_num [finishAnnot, toDocInt, pyInt, normRect, qWidth, qHeight, normColor,
      defaultToolProps]

/-- C6 (amended): the context-menu deletion path wraps its gateway call
in `try/except` and treats a failure as a complete no-op, while the
Delete-key deletion path has no handler: the same gateway failure there
escapes the event filter as an exception. -/
theorem gateway_failure_policy_split (st : ViewerState) (a : Annot) (e : PyErr)
    (hsel : st.selected = some a) :
    deleteAnnotationMenu st (.error e) = (st, []) ∧
    deleteKeyHandler st (.error e) = .error e := by
  constructor
  · rfl
  · simp [deleteKeyHandler, hsel]

/-- Witness for `gateway_failure_policy_split`: a stale-handle failure
with the Circle fixture selected. -/
theorem gateway_failure_policy_split_app :
    ({ baseState with selected := some exCircleAnnot } : ViewerState).selected
        = some exCircleAnnot ∧
    (deleteAnnotationMenu { baseState with selected := some exCircleAnnot } (.error .gatewayError)
        = ({ baseState with selected := some exCircleAnnot }, []) ∧
     deleteKeyHandler { baseState with selected := some exCircleAnnot } (.error .gatewayError)
        = .error .gatewayError) :=
  ⟨rfl,
    gateway_failure_policy_split { baseState with selected := some exCircleAnnot }
      exCircleAnnot .gatewayError rfl⟩

/-- Counterexample to C6 as stated: the Delete-key deletion path lets a
gateway error escape as an unhandled exception instead of treating it
as a no-op. -/
theorem delete_key_gateway_error_escapes :
    deleteKeyHandler { baseState with selected := some exLineAnnot } (.error .gatewayError)
      = .error .gatewayError := by
  rfl

/-- C2 (amended): for the circle, text (with a confirmed non-empty
dialog entry) and stamp tools, a click gesture (end point equal to
start point) issues exactly one creation call of that tool's kind
carrying the fixed 50×50 document-unit rectangle centered on the
truncated document coordinates of the click, and running it creates
exactly one new annotation.  The note tool is different: it passes the
raw click point to `PDFHandler.add_note` with a `color` keyword that
function does not accept, so that call raises `TypeError` and creates
nothing (see the counterexample). -/
theorem click_creates_default_size_rect (pageIdx : ℤ) (m : Mode) (props : Props)
    (click : Pt) (ox oy scale : ℚ) (t : String) (page : Page) (fresh : ℕ)
    (hpage : 0 ≤ pageIdx)
    (hm : m = .text ∨ m = .circle ∨ m = .stamp)
    (ht : t ≠ "") :
    (finishAnnot true pageIdx (some m) props click click ox oy scale (some t)).length = 1 ∧
    ((finishAnnot true pageIdx (some m) props click click ox oy scale (some t)).head?.bind
        createRectOf)
      = some ⟨(toDocInt click ox oy scale).x - 25, (toDocInt click ox oy scale).y - 25,
              (toDocInt click ox oy scale).x - 25 + 50, (toDocInt click ox oy scale).y - 25 + 50⟩ ∧
    ((finishAnnot true pageIdx (some m) props click click ox oy scale (some t)).head?.bind
        createKindOf)
      = toolKind m ∧
    (runCreateCalls page fresh
        (finishAnnot true pageIdx (some m) props click click ox oy scale (some t))).map
        List.length
      = .ok (page.length + 1) := by
  have hnp : ¬pageIdx < 0 := not_lt.mpr hpage
  rcases hm with rfl | rfl | rfl <;>
    · norm_num [finishAnnot, hnp, normRect, qWidth, qHeight, ht, createRectOf, createKindOf,
        toolKind, runCreateCalls, runCreateCall, Except.map]

/-- Witness for `click_creates_default_size_rect`: scenario A — a
circle-tool click at screen `(100, 100)` with offset 0 and scale 1
creates one circle with document rectangle `(75,75)-(125,125)`. -/
theorem click_creates_default_size_rect_app :
    ((0 : ℤ) ≤ 0 ∧
     (Mode.circle = Mode.text ∨ Mode.circle = Mode.circle ∨ Mode.circle = Mode.stamp) ∧
     ("x" : String) ≠ "") ∧
    ((finishAnnot true 0 (some .circle) (defaultToolProps .circle)
        ⟨100, 100⟩ ⟨100, 100⟩ 0 0 1 (some "x")).length = 1 ∧
     ((finishAnnot true 0 (some .circle) (defaultToolProps .circle)
        ⟨100, 100⟩ ⟨100, 100⟩ 0 0 1 (some "x")).head?.bind createRectOf)
      = some ⟨(toDocInt ⟨100, 100⟩ 0 0 1).x - 25, (toDocInt ⟨100, 100⟩ 0 0 1).y - 25,
              (toDocInt ⟨100, 100⟩ 0 0 1).x - 25 + 50, (toDocInt ⟨100, 100⟩ 0 0 1).y - 25 + 50⟩ ∧
     ((finishAnnot true 0 (some .circle) (defaultToolProps .circle)
        ⟨100, 100⟩ ⟨100, 100⟩ 0 0 1 (some "x")).head?.bind createKindOf)
      = toolKind .circle ∧
     (runCreateCalls [] 1
        (finishAnnot true 0 (some .circle) (defaultToolProps .circle)
          ⟨100, 100⟩ ⟨100, 100⟩ 0 0 1 (some "x"))).map List.length
      = .ok (([] : Page).length + 1)) :=
  ⟨⟨le_refl 0, Or.inr (Or.inl rfl), by decide⟩,
    click_creates_default_size_rect 0 .circle (defaultToolProps .circle)
      ⟨100, 100⟩ 0 0 1 "x" [] 1 (le_refl 0) (Or.inr (Or.inl rfl)) (by decide)⟩

/-- Counterexample to C2 as stated (the note tool): a note-tool click
issues a call that carries the raw click point and no rectangle at all
— not the 50×50 default — and because the viewer passes a `color`
keyword that `PDFHandler.add_note` does not accept, running the call
raises `TypeError`, so zero annotations (not exactly one) are
created. -/
theorem note_click_not_default_rect :
    finishAnnot true 0 (some .note) (defaultToolProps .note) ⟨100, 100⟩ ⟨100, 100⟩ 0 0 1 (some "n")
      = [.addNote ⟨100, 100⟩ "n" (normColor ⟨255, 200, 0, 255⟩)] ∧
    (finishAnnot true 0 (some .note) (defaultToolProps .note)
        ⟨100, 100⟩ ⟨100, 100⟩ 0 0 1 (some "n")).map createRectOf = [none] ∧
    ("color" ∈ addNoteParams) = False ∧
    runCreateCalls [] 1
        (finishAnnot true 0 (some .note) (defaultToolProps .note)
          ⟨100, 100⟩ ⟨100, 100⟩ 0 0 1 (some "n"))
      = .error .typeError := by
  have h1 : finishAnnot true 0 (some .note) (defaultToolProps .note)
      ⟨100, 100⟩ ⟨100, 100⟩ 0 0 1 (some "n")
      = [.addNote ⟨100, 100⟩ "n" (normColor ⟨255, 200, 0, 255⟩)] := by
    norm_num [finishAnnot, toDocInt, pyInt, normRect, qWidth, qHeight, defaultToolProps]
    decide
  refine ⟨h1, by rw [h1]; rfl, by simp [addNoteParams], by rw [h1]; rfl⟩

end MantiPDF
